import Mathlib

/-!
Shallow embedding of the HorizonClient log-shipping core
(`HorizonClient` class: constructor, `captureLog`, `flush` with its inner
`send` retry loop, and `autoCaptureErrors` watchdog handlers).

Modelling conventions:
- JavaScript falsy-or-default (`x || d`) on strings/numbers is modelled by
  `orDefaultStr` / `orDefaultNat` (empty string and 0 are falsy).
- The `fetch` call is modelled by an oracle `Nat → FetchResult` giving, for
  each attempt number, either an HTTP status or a thrown network error.
- Suspension points (`await` on the backoff sleep) and observable side
  effects (console writes, timer arm/clear, flush start, process exit) are
  recorded as an ordered list of `Event`s returned alongside the new state.
- The exception behaviour of the transport is modelled separately by
  `sendE : Except String Bool`, where the `catch` branch of the source is
  the `.error` case of the attempted fetch.
-/

inductive Level where
  | debug
  | info
  | warn
  | error
  | fatal
deriving DecidableEq, Repr

structure LogRecord where
  level : Level
  message : String
  metadata : List (String × String)
  timestamp : String
deriving DecidableEq, Repr

structure HorizonClientOptions where
  apiKey : String
  ingestUrl : Option String
  environment : Option String
  batchSize : Option Nat
  flushInterval : Option Nat
  maxRetries : Option Nat
deriving DecidableEq, Repr

/-- JavaScript `s || d` for strings: the empty string is falsy. -/
def orDefaultStr (v : Option String) (d : String) : String :=
  match v with
  | none => d
  | some s => if s = "" then d else s

/-- JavaScript `n || d` for numbers: 0 is falsy. -/
def orDefaultNat (v : Option Nat) (d : Nat) : Nat :=
  match v with
  | none => d
  | some n => if n = 0 then d else n

structure Config where
  apiKey : String
  ingestUrl : String
  environment : String
  batchSize : Nat
  flushInterval : Nat
  maxRetries : Nat
deriving DecidableEq, Repr

/-- Embedding of the `HorizonClient` constructor: assigns every field
(with its `||` default), then throws `Error('Horizon API Key is required')`
when the key is falsy (empty). -/
def mkHorizonClient (opts : HorizonClientOptions) : Except String Config :=
  let cfg : Config :=
    { apiKey := opts.apiKey
      ingestUrl := orDefaultStr opts.ingestUrl "https://horizon-api.bylinee.com/v1/ingest"
      environment := orDefaultStr opts.environment "production"
      batchSize := orDefaultNat opts.batchSize 50
      flushInterval := orDefaultNat opts.flushInterval 2000
      maxRetries := orDefaultNat opts.maxRetries 3 }
  if cfg.apiKey = "" then Except.error "Horizon API Key is required"
  else Except.ok cfg

/-- Mutable state of one client instance: the record buffer, the stored
timer handle (`this.timer`, null or a handle), together with a ghost view
of which `setTimeout` handles are actually outstanding in the runtime and
a counter producing fresh handles. -/
structure ClientState where
  buffer : List LogRecord
  timer : Option Nat
  outstanding : List Nat
  nextHandle : Nat
deriving DecidableEq, Repr

def initState : ClientState := ⟨[], none, [], 0⟩

/-- Result of one `fetch` of the batch: an HTTP response with a status
code, or a network-level exception. -/
inductive FetchResult where
  | response (status : Nat)
  | netError
deriving DecidableEq, Repr

/-- Trace of the `send` retry loop: the final boolean it returns, the
attempt numbers at which a fetch was issued, and the backoff delays (in
milliseconds) awaited between attempts, in order. -/
structure SendResult where
  success : Bool
  attemptList : List Nat
  delays : List Nat
deriving DecidableEq, Repr

/-- Embedding of the inner `send(attempt)` closure of `flush`:
`res.ok` (2xx) or any 4xx returns true; a 5xx with attempt < maxRetries
sleeps `2^attempt * 1000` ms and recurses with attempt+1; a thrown fetch
error follows the same retry policy; anything else returns false. -/
def send (oracle : Nat → FetchResult) (maxRetries : Nat) (attempt : Nat) : SendResult :=
  match oracle attempt with
  | FetchResult.response status =>
    if (200 ≤ status ∧ status < 300) ∨ (400 ≤ status ∧ status < 500) then
      ⟨true, [attempt], []⟩
    else if h : 500 ≤ status ∧ attempt < maxRetries then
      let r := send oracle maxRetries (attempt + 1)
      ⟨r.success, attempt :: r.attemptList, 2 ^ attempt * 1000 :: r.delays⟩
    else
      ⟨false, [attempt], []⟩
  | FetchResult.netError =>
    if h : attempt < maxRetries then
      let r := send oracle maxRetries (attempt + 1)
      ⟨r.success, attempt :: r.attemptList, 2 ^ attempt * 1000 :: r.delays⟩
    else
      ⟨false, [attempt], []⟩
termination_by maxRetries - attempt
decreasing_by
  all_goals omega

/-- Exception-level view of the same loop: the fetch may raise (the
`netError` case is a thrown exception), and the source's `catch` block is
the handler; `send` itself never lets an exception escape. -/
def sendE (oracle : Nat → FetchResult) (maxRetries : Nat) (attempt : Nat) : Except String Bool :=
  match oracle attempt with
  | FetchResult.response status =>
    if (200 ≤ status ∧ status < 300) ∨ (400 ≤ status ∧ status < 500) then
      Except.ok true
    else if h : 500 ≤ status ∧ attempt < maxRetries then
      sendE oracle maxRetries (attempt + 1)
    else
      Except.ok false
  | FetchResult.netError =>
    if h : attempt < maxRetries then
      sendE oracle maxRetries (attempt + 1)
    else
      Except.ok false
termination_by maxRetries - attempt
decreasing_by
  all_goals omega

/-- Observable events of one client operation, in program order. An
`awaitDelay` is a suspension the awaiting caller sits through. -/
inductive Event where
  | timerSet (h : Nat)
  | timerCleared (h : Nat)
  | flushStarted (batch : List LogRecord)
  | consoleError (msg : String)
  | awaitDelay (ms : Nat)
  | processExit (code : Nat)
deriving DecidableEq, Repr

/-- Embedding of `flush()`: early return on an empty buffer; otherwise
clear the stored timer if any, snapshot the buffer as the payload, reset
the buffer, run the send loop, and on failure write the diagnostic to the
console. -/
def flush (cfg : Config) (s : ClientState) (oracle : Nat → FetchResult) :
    ClientState × List Event :=
  if s.buffer = [] then (s, [])
  else
    let cleared : ClientState × List Event :=
      match s.timer with
      | some h =>
        ({ s with timer := none, outstanding := s.outstanding.erase h },
         [Event.timerCleared h])
      | none => (s, [])
    let payload := cleared.1.buffer
    let s2 := { cleared.1 with buffer := [] }
    let r := send oracle cfg.maxRetries 0
    let evFail :=
      if r.success then []
      else [Event.consoleError "[Horizon SDK] Failed to send logs after multiple retries."]
    (s2, cleared.2 ++ [Event.flushStarted payload] ++ r.delays.map Event.awaitDelay ++ evFail)

/-- Record as pushed by `captureLog`: the caller's metadata spread first,
then the `sdk_env` tag, and the capture-time timestamp. -/
def mkRecord (cfg : Config) (level : Level) (message : String)
    (metadata : List (String × String)) (now : String) : LogRecord :=
  ⟨level, message, metadata ++ [("sdk_env", cfg.environment)], now⟩

/-- Embedding of `captureLog(level, message, metadata)`: push the record
(metadata augmented with `sdk_env`), then either `await flush()` when the
buffer has reached `batchSize`, or arm a timer when none is armed. -/
def captureLog (cfg : Config) (s : ClientState) (level : Level) (message : String)
    (metadata : List (String × String)) (now : String) (oracle : Nat → FetchResult) :
    ClientState × List Event :=
  let s1 := { s with buffer := s.buffer ++ [mkRecord cfg level message metadata now] }
  if cfg.batchSize ≤ s1.buffer.length then
    flush cfg s1 oracle
  else
    match s1.timer with
    | none =>
      ({ s1 with
          timer := some s1.nextHandle
          outstanding := s1.outstanding ++ [s1.nextHandle]
          nextHandle := s1.nextHandle + 1 },
       [Event.timerSet s1.nextHandle])
    | some _ => (s1, [])

/-- Firing of an armed `setTimeout` handle: the runtime consumes the
handle and runs the scheduled `() => this.flush()` callback. -/
def timerFire (cfg : Config) (s : ClientState) (h : Nat) (oracle : Nat → FetchResult) :
    ClientState × List Event :=
  flush cfg { s with outstanding := s.outstanding.erase h } oracle

/-- Embedding of a JavaScript `Error` value as seen by the watchdog. -/
structure JsError where
  message : String
  stack : String
deriving DecidableEq, Repr

/-- Embedding of the `uncaughtException` handler installed by
`autoCaptureErrors`: console diagnostic, `await captureLog('fatal', ...)`,
`await this.flush()`, then `process.exit(1)`. -/
def uncaughtExceptionHandler (cfg : Config) (s : ClientState) (e : JsError)
    (now : String) (oracle : Nat → FetchResult) : ClientState × List Event :=
  let msg := if e.message = "" then "Uncaught Exception" else e.message
  let step1 := captureLog cfg s Level.fatal msg
    [("stack", e.stack), ("type", "uncaughtException")] now oracle
  let step2 := flush cfg step1.1 oracle
  (step2.1,
   Event.consoleError "[Horizon SDK] Uncaught Exception detected." ::
     step1.2 ++ step2.2 ++ [Event.processExit 1])

/-- Rejection reason: an `Error` instance or any other value (via
`String(reason)`). -/
inductive Reason where
  | jsErr (e : JsError)
  | other (v : String)
deriving DecidableEq, Repr

/-- Embedding of the `unhandledRejection` handler installed by
`autoCaptureErrors`: only `await captureLog('fatal', ...)` — no forced
flush, no process exit. -/
def unhandledRejectionHandler (cfg : Config) (s : ClientState) (reason : Reason)
    (now : String) (oracle : Nat → FetchResult) : ClientState × List Event :=
  let msg0 := match reason with
    | Reason.jsErr e => e.message
    | Reason.other v => v
  let msg := if msg0 = "" then "Unhandled Rejection" else msg0
  let reasonField := match reason with
    | Reason.jsErr e => e.stack
    | Reason.other v => v
  captureLog cfg s Level.fatal msg
    [("type", "unhandledRejection"), ("reason", reasonField)] now oracle

/-- States reachable for one client instance by any interleaving of
producer calls, manual flushes, and timer firings. -/
inductive Reachable (cfg : Config) : ClientState → Prop where
  | init : Reachable cfg initState
  | capture {s} (level : Level) (message : String) (metadata : List (String × String))
      (now : String) (oracle : Nat → FetchResult) :
      Reachable cfg s →
      Reachable cfg (captureLog cfg s level message metadata now oracle).1
  | flushStep {s} (oracle : Nat → FetchResult) :
      Reachable cfg s → Reachable cfg (flush cfg s oracle).1
  | fire {s} (h : Nat) (oracle : Nat → FetchResult) :
      Reachable cfg s → h ∈ s.outstanding →
      Reachable cfg (timerFire cfg s h oracle).1

/-- Timer invariant: the nullable handle field tracks exactly the
outstanding runtime timers — a null handle means none outstanding, a
stored handle means precisely that one is outstanding and it guards a
non-empty buffer. -/
def TimerInv (s : ClientState) : Prop :=
  (s.timer = none → s.outstanding = []) ∧
  (∀ h, s.timer = some h → s.outstanding = [h] ∧ s.buffer ≠ [])

def failMsg : String := "[Horizon SDK] Failed to send logs after multiple retries."

lemma send_sendE_agree (oracle : Nat → FetchResult) (mr : Nat) :
    ∀ d a, mr - a ≤ d → sendE oracle mr a = Except.ok (send oracle mr a).success := by
  intro d
  induction d with
  | zero =>
    intro a ha
    rw [sendE, send]
    cases horacle : oracle a with
    | response status =>
      by_cases h1 : (200 ≤ status ∧ status < 300) ∨ (400 ≤ status ∧ status < 500)
      · simp [h1]
      · have h2 : ¬ (500 ≤ status ∧ a < mr) := by omega
        simp [h1, h2]
    | netError =>
      have h2 : ¬ a < mr := by omega
      simp [h2]
  | succ d ih =>
    intro a ha
    rw [sendE, send]
    cases horacle : oracle a with
    | response status =>
      by_cases h1 : (200 ≤ status ∧ status < 300) ∨ (400 ≤ status ∧ status < 500)
      · simp [h1]
      · by_cases h2 : 500 ≤ status ∧ a < mr
        · simpa [h1, h2] using ih (a + 1) (by omega)
        · simp [h1, h2]
    | netError =>
      by_cases h2 : a < mr
      · simpa [h2] using ih (a + 1) (by omega)
      · simp [h2]

lemma send_all_5xx (oracle : Nat → FetchResult) (mr : Nat)
    (H : ∀ n, n ≤ mr → oracle n = FetchResult.netError ∨
      ∃ st, oracle n = FetchResult.response st ∧ 500 ≤ st ∧ st < 600) :
    ∀ d a, mr - a = d → a ≤ mr →
      send oracle mr a =
        ⟨false, List.range' a (d + 1), (List.range' a d).map (fun k => 2 ^ k * 1000)⟩ := by
  intro d
  induction d with
  | zero =>
    intro a hd ha
    have hm : a = mr := by omega
    rw [send]
    rcases H a ha with hne | ⟨st, hst, h5, h6⟩
    · rw [hne]
      have h2 : ¬ a < mr := by omega
      simp [h2, List.range'_succ]
    · rw [hst]
      have h1 : ¬ ((200 ≤ st ∧ st < 300) ∨ (400 ≤ st ∧ st < 500)) := by omega
      have h2 : ¬ (500 ≤ st ∧ a < mr) := by omega
      simp [h1, h2, List.range'_succ]
  | succ d ih =>
    intro a hd ha
    have hlt : a < mr := by omega
    have hrec := ih (a + 1) (by omega) (by omega)
    rw [send]
    rcases H a ha with hne | ⟨st, hst, h5, h6⟩
    · rw [hne]
      simp [hlt, hrec, List.range'_succ]
    · rw [hst]
      have h1 : ¬ ((200 ≤ st ∧ st < 300) ∨ (400 ≤ st ∧ st < 500)) := by omega
      have h2 : 500 ≤ st ∧ a < mr := ⟨h5, hlt⟩
      simp [h1, h2, hrec, List.range'_succ]

lemma flush_empty (cfg : Config) (oracle : Nat → FetchResult) (t : Option Nat)
    (o : List Nat) (n : Nat) :
    flush cfg ⟨[], t, o, n⟩ oracle = (⟨[], t, o, n⟩, []) := by
  simp [flush]

lemma flush_eq_none (cfg : Config) (oracle : Nat → FetchResult) (buf : List LogRecord)
    (o : List Nat) (n : Nat) (hb : buf ≠ []) :
    flush cfg ⟨buf, none, o, n⟩ oracle =
      (⟨[], none, o, n⟩,
       Event.flushStarted buf ::
         ((send oracle cfg.maxRetries 0).delays.map Event.awaitDelay ++
          (if (send oracle cfg.maxRetries 0).success then []
           else [Event.consoleError failMsg]))) := by
  simp [flush, hb, failMsg]

lemma flush_eq_some (cfg : Config) (oracle : Nat → FetchResult) (buf : List LogRecord)
    (k : Nat) (o : List Nat) (n : Nat) (hb : buf ≠ []) :
    flush cfg ⟨buf, some k, o, n⟩ oracle =
      (⟨[], none, o.erase k, n⟩,
       Event.timerCleared k :: Event.flushStarted buf ::
         ((send oracle cfg.maxRetries 0).delays.map Event.awaitDelay ++
          (if (send oracle cfg.maxRetries 0).success then []
           else [Event.consoleError failMsg]))) := by
  simp [flush, hb, failMsg]

lemma captureLog_eq_threshold (cfg : Config) (oracle : Nat → FetchResult)
    (buf : List LogRecord) (t : Option Nat) (o : List Nat) (n : Nat)
    (level : Level) (message : String) (metadata : List (String × String)) (now : String)
    (hth : cfg.batchSize ≤ buf.length + 1) :
    captureLog cfg ⟨buf, t, o, n⟩ level message metadata now oracle =
      flush cfg ⟨buf ++ [mkRecord cfg level message metadata now], t, o, n⟩ oracle := by
  simp [captureLog, hth]

lemma captureLog_eq_below_none (cfg : Config) (oracle : Nat → FetchResult)
    (buf : List LogRecord) (o : List Nat) (n : Nat)
    (level : Level) (message : String) (metadata : List (String × String)) (now : String)
    (hth : ¬ cfg.batchSize ≤ buf.length + 1) :
    captureLog cfg ⟨buf, none, o, n⟩ level message metadata now oracle =
      (⟨buf ++ [mkRecord cfg level message metadata now], some n, o ++ [n], n + 1⟩,
       [Event.timerSet n]) := by
  simp [captureLog, hth]

lemma captureLog_eq_below_some (cfg : Config) (oracle : Nat → FetchResult)
    (buf : List LogRecord) (k : Nat) (o : List Nat) (n : Nat)
    (level : Level) (message : String) (metadata : List (String × String)) (now : String)
    (hth : ¬ cfg.batchSize ≤ buf.length + 1) :
    captureLog cfg ⟨buf, some k, o, n⟩ level message metadata now oracle =
      (⟨buf ++ [mkRecord cfg level message metadata now], some k, o, n⟩, []) := by
  simp [captureLog, hth]

lemma flush_no_exit (cfg : Config) (s : ClientState) (oracle : Nat → FetchResult)
    (c : Nat) : Event.processExit c ∉ (flush cfg s oracle).2 := by
  obtain ⟨buf, t, o, n⟩ := s
  by_cases hb : buf = []
  · subst hb
    simp [flush_empty]
  · by_cases hs : (send oracle cfg.maxRetries 0).success
    · cases t with
      | none => simp [flush_eq_none cfg oracle buf o n hb, hs]
      | some k => simp [flush_eq_some cfg oracle buf k o n hb, hs]
    · cases t with
      | none => simp [flush_eq_none cfg oracle buf o n hb, hs, failMsg]
      | some k => simp [flush_eq_some cfg oracle buf k o n hb, hs, failMsg]

lemma captureLog_no_exit (cfg : Config) (s : ClientState) (oracle : Nat → FetchResult)
    (level : Level) (message : String) (metadata : List (String × String)) (now : String)
    (c : Nat) :
    Event.processExit c ∉ (captureLog cfg s level message metadata now oracle).2 := by
  obtain ⟨buf, t, o, n⟩ := s
  by_cases hth : cfg.batchSize ≤ buf.length + 1
  · rw [captureLog_eq_threshold cfg oracle buf t o n level message metadata now hth]
    exact flush_no_exit _ _ _ _
  · cases t with
    | none => simp [captureLog_eq_below_none cfg oracle buf o n level message metadata now hth]
    | some k => simp [captureLog_eq_below_some cfg oracle buf k o n level message metadata now hth]

lemma timerInv_init : TimerInv initState := by
  refine ⟨fun _ => rfl, fun h hh => by simp [initState] at hh⟩

lemma timerInv_flush (cfg : Config) (s : ClientState) (oracle : Nat → FetchResult)
    (hinv : TimerInv s) : TimerInv (flush cfg s oracle).1 := by
  obtain ⟨buf, t, o, n⟩ := s
  obtain ⟨h1, h2⟩ := hinv
  by_cases hb : buf = []
  · subst hb
    rw [flush_empty]
    exact ⟨h1, h2⟩
  · cases t with
    | none =>
      rw [flush_eq_none cfg oracle buf o n hb]
      have ho : o = [] := h1 rfl
      subst ho
      exact ⟨fun _ => rfl, fun h hh => by simp at hh⟩
    | some k =>
      rw [flush_eq_some cfg oracle buf k o n hb]
      have ho : o = [k] := (h2 k rfl).1
      subst ho
      exact ⟨fun _ => by simp, fun h hh => by simp at hh⟩

lemma timerInv_capture (cfg : Config) (s : ClientState) (oracle : Nat → FetchResult)
    (level : Level) (message : String) (metadata : List (String × String)) (now : String)
    (hinv : TimerInv s) :
    TimerInv (captureLog cfg s level message metadata now oracle).1 := by
  obtain ⟨buf, t, o, n⟩ := s
  obtain ⟨h1, h2⟩ := hinv
  by_cases hth : cfg.batchSize ≤ buf.length + 1
  · rw [captureLog_eq_threshold cfg oracle buf t o n level message metadata now hth]
    apply timerInv_flush
    exact ⟨h1, fun h hh => ⟨(h2 h hh).1, by simp⟩⟩
  · cases t with
    | none =>
      rw [captureLog_eq_below_none cfg oracle buf o n level message metadata now hth]
      have ho : o = [] := h1 rfl
      subst ho
      refine ⟨fun hh => by simp at hh, fun h hh => ?_⟩
      have hn : h = n := by simpa using hh.symm
      subst hn
      exact ⟨by simp, by simp⟩
    | some k =>
      rw [captureLog_eq_below_some cfg oracle buf k o n level message metadata now hth]
      refine ⟨fun hh => by simp at hh, fun h hh => ?_⟩
      have hk : h = k := by simpa using hh.symm
      subst hk
      exact ⟨(h2 h rfl).1, by simp⟩

lemma timerInv_fire (cfg : Config) (s : ClientState) (oracle : Nat → FetchResult)
    (h : Nat) (hinv : TimerInv s) (hmem : h ∈ s.outstanding) :
    TimerInv (timerFire cfg s h oracle).1 := by
  obtain ⟨buf, t, o, n⟩ := s
  obtain ⟨h1, h2⟩ := hinv
  cases t with
  | none =>
    have ho : o = [] := h1 rfl
    subst ho
    simp at hmem
  | some k =>
    obtain ⟨ho, hbuf⟩ := h2 k rfl
    subst ho
    have hk : h = k := by simpa using hmem
    subst hk
    have hstep : timerFire cfg ⟨buf, some h, [h], n⟩ h oracle =
        flush cfg ⟨buf, some h, [], n⟩ oracle := by
      simp [timerFire]
    rw [hstep, flush_eq_some cfg oracle buf h [] n hbuf]
    exact ⟨fun _ => by simp, fun h hh => by simp at hh⟩

lemma reachable_timerInv (cfg : Config) (s : ClientState) (hr : Reachable cfg s) :
    TimerInv s := by
  induction hr with
  | init => exact timerInv_init
  | capture level message metadata now oracle _ ih =>
    exact timerInv_capture _ _ _ _ _ _ _ ih
  | flushStep oracle _ ih => exact timerInv_flush _ _ _ ih
  | fire h oracle _ hmem ih => exact timerInv_fire _ _ _ _ ih hmem

lemma flush_fail_console (cfg : Config) (s : ClientState) (oracle : Nat → FetchResult)
    (hb : s.buffer ≠ []) (hf : (send oracle cfg.maxRetries 0).success = false) :
    Event.consoleError failMsg ∈ (flush cfg s oracle).2 := by
  obtain ⟨buf, t, o, n⟩ := s
  cases t with
  | none => rw [flush_eq_none cfg oracle buf o n hb]; simp [hf]
  | some k => rw [flush_eq_some cfg oracle buf k o n hb]; simp [hf]

lemma flush_flushStarted (cfg : Config) (s : ClientState) (oracle : Nat → FetchResult)
    (hb : s.buffer ≠ []) :
    Event.flushStarted s.buffer ∈ (flush cfg s oracle).2 := by
  obtain ⟨buf, t, o, n⟩ := s
  cases t with
  | none => rw [flush_eq_none cfg oracle buf o n hb]; simp
  | some k => rw [flush_eq_some cfg oracle buf k o n hb]; simp

/-- C1: for a batch whose delivery always gets a 5xx response or a network
exception, `send` makes exactly `maxRetries + 1` sequential attempts
numbered `0..maxRetries`, sleeping exactly `2^a * 1000` ms (= `2^a`
seconds) after attempt `a`, returns failure, and the abandonment surfaces
only as the console diagnostic written by `flush`. -/
theorem retry_exhaustion_abandoned (oracle : Nat → FetchResult) (mr : Nat)
    (H : ∀ n, n ≤ mr → oracle n = FetchResult.netError ∨
      ∃ st, oracle n = FetchResult.response st ∧ 500 ≤ st ∧ st < 600) :
    (send oracle mr 0).attemptList = List.range (mr + 1) ∧
    (send oracle mr 0).attemptList.length = mr + 1 ∧
    (send oracle mr 0).delays = (List.range mr).map (fun a => 2 ^ a * 1000) ∧
    (send oracle mr 0).success = false ∧
    ∀ cfg s, cfg.maxRetries = mr → s.buffer ≠ [] →
      Event.consoleError failMsg ∈ (flush cfg s oracle).2 := by
  have h := send_all_5xx oracle mr H mr 0 (by omega) (by omega)
  refine ⟨?_, ?_, ?_, ?_, ?_⟩
  · rw [h, List.range_eq_range']
  · rw [h]; simp
  · rw [h, List.range_eq_range']
  · rw [h]
  · intro cfg s hcfg hb
    apply flush_fail_console cfg s oracle hb
    rw [hcfg, h]

theorem retry_exhaustion_abandoned_witness :
    (send (fun _ => FetchResult.response 503) 2 0).attemptList = List.range 3 ∧
    (send (fun _ => FetchResult.response 503) 2 0).attemptList.length = 3 ∧
    (send (fun _ => FetchResult.response 503) 2 0).delays =
      (List.range 2).map (fun a => 2 ^ a * 1000) ∧
    (send (fun _ => FetchResult.response 503) 2 0).success = false ∧
    ∀ cfg s, cfg.maxRetries = 2 → s.buffer ≠ [] →
      Event.consoleError failMsg ∈ (flush cfg s (fun _ => FetchResult.response 503)).2 :=
  retry_exhaustion_abandoned (fun _ => FetchResult.response 503) 2
    (fun n _ => Or.inr ⟨503, rfl, by omega⟩)

lemma send_5xx_prefix (oracle : Nat → FetchResult) (mr j : Nat)
    (H5 : ∀ n, n < j → oracle n = FetchResult.netError ∨
      ∃ st, oracle n = FetchResult.response st ∧ 500 ≤ st ∧ st < 600)
    (hj : j ≤ mr) :
    ∀ d a, j - a = d → a ≤ j →
      send oracle mr a =
        ⟨(send oracle mr j).success,
         List.range' a d ++ (send oracle mr j).attemptList,
         (List.range' a d).map (fun k => 2 ^ k * 1000) ++ (send oracle mr j).delays⟩ := by
  intro d
  induction d with
  | zero =>
    intro a hd ha
    have hm : a = j := by omega
    subst hm
    simp
  | succ d ih =>
    intro a hd ha
    have hlt : a < j := by omega
    have hrec := ih (a + 1) (by omega) (by omega)
    rw [send]
    rcases H5 a hlt with hne | ⟨st, hst, h5, h6⟩
    · rw [hne]
      have h2 : a < mr := by omega
      simp [h2, hrec, List.range'_succ]
    · rw [hst]
      have h1 : ¬ ((200 ≤ st ∧ st < 300) ∨ (400 ≤ st ∧ st < 500)) := by omega
      have h2 : 500 ≤ st ∧ a < mr := ⟨h5, by omega⟩
      simp [h1, h2, hrec, List.range'_succ]

/-- C3: any send attempt `j` whose response status is 2xx or 4xx is
terminal with success — from that attempt the loop returns true with no
further attempt and no backoff delay — including an attempt reached after
a run of 5xx/network-error retries: a whole run that gets 5xx or network
errors on attempts `0..j-1` and a 2xx/4xx on attempt `j` makes exactly
`j + 1` attempts and succeeds; with `j = 0` this is the claim's 400-on-
first-attempt special case. -/
theorem terminal_2xx_4xx_delivered (oracle : Nat → FetchResult) (mr j status : Nat)
    (H5 : ∀ n, n < j → oracle n = FetchResult.netError ∨
      ∃ st, oracle n = FetchResult.response st ∧ 500 ≤ st ∧ st < 600)
    (hj : j ≤ mr)
    (hja : oracle j = FetchResult.response status)
    (hok : (200 ≤ status ∧ status < 300) ∨ (400 ≤ status ∧ status < 500)) :
    send oracle mr j = ⟨true, [j], []⟩ ∧
    send oracle mr 0 =
      ⟨true, List.range (j + 1), (List.range j).map (fun a => 2 ^ a * 1000)⟩ := by
  have hterm : send oracle mr j = ⟨true, [j], []⟩ := by
    rw [send, hja]
    simp [hok]
  refine ⟨hterm, ?_⟩
  have hrun := send_5xx_prefix oracle mr j H5 hj j 0 (by omega) (by omega)
  rw [hrun, hterm]
  have hatt : List.range' 0 j ++ [j] = List.range (j + 1) := by
    rw [List.range_succ, List.range_eq_range']
  simp [hatt, List.range_eq_range']

theorem terminal_2xx_4xx_delivered_witness :
    (send (fun n => if n = 0 then FetchResult.response 503 else FetchResult.response 400) 3 1 =
      ⟨true, [1], []⟩ ∧
     send (fun n => if n = 0 then FetchResult.response 503 else FetchResult.response 400) 3 0 =
      ⟨true, List.range 2, (List.range 1).map (fun a => 2 ^ a * 1000)⟩) ∧
    (send (fun _ => FetchResult.response 400) 3 0 = ⟨true, [0], []⟩ ∧
     send (fun _ => FetchResult.response 400) 3 0 =
      ⟨true, List.range 1, (List.range 0).map (fun a => 2 ^ a * 1000)⟩) :=
  ⟨terminal_2xx_4xx_delivered
      (fun n => if n = 0 then FetchResult.response 503 else FetchResult.response 400) 3 1 400
      (by
        intro n hn
        have hn0 : n = 0 := by omega
        subst hn0
        exact Or.inr ⟨503, rfl, by omega⟩)
      (by omega) rfl (by omega),
   terminal_2xx_4xx_delivered (fun _ => FetchResult.response 400) 3 0 400
      (by intro n hn; omega) (by omega) rfl (by omega)⟩

/-- C4: delivery failures are never raised to the caller: the retry loop
in the exception-level model always returns `Except.ok` (matching the
boolean of the trace model), and a terminal failure is reported only by
the console diagnostic inside `flush`. -/
theorem delivery_failure_not_raised (oracle : Nat → FetchResult) (mr a : Nat)
    (cfg : Config) (s : ClientState) (hb : s.buffer ≠ []) :
    sendE oracle mr a = Except.ok (send oracle mr a).success ∧
    ((send oracle cfg.maxRetries 0).success = false →
      Event.consoleError failMsg ∈ (flush cfg s oracle).2) :=
  ⟨send_sendE_agree oracle mr (mr - a) a (le_refl _),
   fun hf => flush_fail_console cfg s oracle hb hf⟩

theorem delivery_failure_not_raised_witness :
    sendE (fun _ => FetchResult.netError) 1 0 =
      Except.ok (send (fun _ => FetchResult.netError) 1 0).success ∧
    ((send (fun _ => FetchResult.netError)
        (Config.mk "k" "u" "production" 50 2000 1).maxRetries 0).success = false →
      Event.consoleError failMsg ∈
        (flush (Config.mk "k" "u" "production" 50 2000 1)
          ⟨[⟨Level.info, "m", [], "t"⟩], none, [], 0⟩ (fun _ => FetchResult.netError)).2) :=
  delivery_failure_not_raised (fun _ => FetchResult.netError) 1 0
    (Config.mk "k" "u" "production" 50 2000 1)
    ⟨[⟨Level.info, "m", [], "t"⟩], none, [], 0⟩ (by simp)

/-- C10: any send attempt `j` whose response status is 3xx (neither a
success, a 4xx, nor a 5xx) terminates the Sender immediately with
failure — no further attempt and no backoff delay from that attempt —
including an attempt reached after a run of 5xx/network-error retries: a
run getting 5xx/network errors on attempts `0..j-1` and a 3xx on attempt
`j` makes exactly `j + 1` attempts, fails, and `flush` logs the
abandonment diagnostic. -/
theorem redirect_3xx_abandoned (oracle : Nat → FetchResult) (mr j status : Nat)
    (cfg : Config) (s : ClientState)
    (H5 : ∀ n, n < j → oracle n = FetchResult.netError ∨
      ∃ st, oracle n = FetchResult.response st ∧ 500 ≤ st ∧ st < 600)
    (hj : j ≤ mr)
    (hja : oracle j = FetchResult.response status)
    (h3 : 300 ≤ status ∧ status < 400)
    (hcfg : cfg.maxRetries = mr) (hb : s.buffer ≠ []) :
    send oracle mr j = ⟨false, [j], []⟩ ∧
    send oracle mr 0 =
      ⟨false, List.range (j + 1), (List.range j).map (fun a => 2 ^ a * 1000)⟩ ∧
    Event.consoleError failMsg ∈ (flush cfg s oracle).2 := by
  have h1 : ¬ ((200 ≤ status ∧ status < 300) ∨ (400 ≤ status ∧ status < 500)) := by omega
  have h2 : ¬ (500 ≤ status ∧ j < mr) := by omega
  have hterm : send oracle mr j = ⟨false, [j], []⟩ := by
    rw [send, hja]
    simp [h1, h2]
  have hrun : send oracle mr 0 =
      ⟨false, List.range (j + 1), (List.range j).map (fun a => 2 ^ a * 1000)⟩ := by
    have hpre := send_5xx_prefix oracle mr j H5 hj j 0 (by omega) (by omega)
    rw [hpre, hterm]
    have hatt : List.range' 0 j ++ [j] = List.range (j + 1) := by
      rw [List.range_succ, List.range_eq_range']
    simp [hatt, List.range_eq_range']
  refine ⟨hterm, hrun, flush_fail_console cfg s oracle hb ?_⟩
  rw [hcfg, hrun]

theorem redirect_3xx_abandoned_witness :
    send (fun n => if n = 0 then FetchResult.response 500 else FetchResult.response 302) 3 1 =
      ⟨false, [1], []⟩ ∧
    send (fun n => if n = 0 then FetchResult.response 500 else FetchResult.response 302) 3 0 =
      ⟨false, List.range 2, (List.range 1).map (fun a => 2 ^ a * 1000)⟩ ∧
    Event.consoleError failMsg ∈
      (flush (Config.mk "k" "u" "production" 50 2000 3)
        ⟨[⟨Level.info, "m", [], "t"⟩], none, [], 0⟩
        (fun n => if n = 0 then FetchResult.response 500 else FetchResult.response 302)).2 :=
  redirect_3xx_abandoned
    (fun n => if n = 0 then FetchResult.response 500 else FetchResult.response 302) 3 1 302
    (Config.mk "k" "u" "production" 50 2000 3)
    ⟨[⟨Level.info, "m", [], "t"⟩], none, [], 0⟩
    (by
      intro n hn
      have hn0 : n = 0 := by omega
      subst hn0
      exact Or.inr ⟨500, rfl, by omega⟩)
    (by omega) rfl (by omega) rfl (by simp)

/-- C2: a `captureLog` call that brings the buffer to at least `batchSize`
starts a flush within that very call, whose batch is exactly the records
accumulated so far in call order; any pending timer is cancelled and no
timer remains armed afterwards. -/
theorem threshold_triggers_immediate_flush (cfg : Config) (s : ClientState)
    (oracle : Nat → FetchResult) (level : Level) (message : String)
    (metadata : List (String × String)) (now : String)
    (hinv : TimerInv s) (hth : cfg.batchSize ≤ s.buffer.length + 1) :
    Event.flushStarted (s.buffer ++ [mkRecord cfg level message metadata now]) ∈
      (captureLog cfg s level message metadata now oracle).2 ∧
    (captureLog cfg s level message metadata now oracle).1.buffer = [] ∧
    (captureLog cfg s level message metadata now oracle).1.timer = none ∧
    (captureLog cfg s level message metadata now oracle).1.outstanding = [] ∧
    (∀ k, s.timer = some k →
      Event.timerCleared k ∈ (captureLog cfg s level message metadata now oracle).2) := by
  obtain ⟨buf, t, o, n⟩ := s
  obtain ⟨h1, h2⟩ := hinv
  rw [captureLog_eq_threshold cfg oracle buf t o n level message metadata now hth]
  have hb : buf ++ [mkRecord cfg level message metadata now] ≠ [] := by simp
  cases t with
  | none =>
    rw [flush_eq_none cfg oracle (buf ++ [mkRecord cfg level message metadata now]) o n hb]
    have ho : o = [] := h1 rfl
    subst ho
    exact ⟨by simp, rfl, rfl, rfl, fun k hk => by simp at hk⟩
  | some k0 =>
    rw [flush_eq_some cfg oracle (buf ++ [mkRecord cfg level message metadata now]) k0 o n hb]
    have ho : o = [k0] := (h2 k0 rfl).1
    subst ho
    refine ⟨by simp, rfl, rfl, by simp, fun k hk => ?_⟩
    have hkk : k = k0 := by simpa using hk.symm
    subst hkk
    simp

theorem threshold_triggers_immediate_flush_witness :
    Event.flushStarted
      ([⟨Level.info, "a", [("sdk_env", "production")], "t0"⟩] ++
        [mkRecord (Config.mk "k" "u" "production" 2 2000 3) Level.info "b" [] "t1"]) ∈
      (captureLog (Config.mk "k" "u" "production" 2 2000 3)
        ⟨[⟨Level.info, "a", [("sdk_env", "production")], "t0"⟩], some 0, [0], 1⟩
        Level.info "b" [] "t1" (fun _ => FetchResult.response 200)).2 ∧
    (captureLog (Config.mk "k" "u" "production" 2 2000 3)
      ⟨[⟨Level.info, "a", [("sdk_env", "production")], "t0"⟩], some 0, [0], 1⟩
      Level.info "b" [] "t1" (fun _ => FetchResult.response 200)).1.buffer = [] ∧
    (captureLog (Config.mk "k" "u" "production" 2 2000 3)
      ⟨[⟨Level.info, "a", [("sdk_env", "production")], "t0"⟩], some 0, [0], 1⟩
      Level.info "b" [] "t1" (fun _ => FetchResult.response 200)).1.timer = none ∧
    (captureLog (Config.mk "k" "u" "production" 2 2000 3)
      ⟨[⟨Level.info, "a", [("sdk_env", "production")], "t0"⟩], some 0, [0], 1⟩
      Level.info "b" [] "t1" (fun _ => FetchResult.response 200)).1.outstanding = [] ∧
    (∀ k, (ClientState.mk [⟨Level.info, "a", [("sdk_env", "production")], "t0"⟩]
        (some 0) [0] 1).timer = some k →
      Event.timerCleared k ∈
        (captureLog (Config.mk "k" "u" "production" 2 2000 3)
          ⟨[⟨Level.info, "a", [("sdk_env", "production")], "t0"⟩], some 0, [0], 1⟩
          Level.info "b" [] "t1" (fun _ => FetchResult.response 200)).2) :=
  threshold_triggers_immediate_flush (Config.mk "k" "u" "production" 2 2000 3)
    ⟨[⟨Level.info, "a", [("sdk_env", "production")], "t0"⟩], some 0, [0], 1⟩
    (fun _ => FetchResult.response 200) Level.info "b" [] "t1"
    ⟨fun hh => by simp at hh, fun k hk => by
      refine ⟨?_, by simp⟩
      have : k = 0 := by simpa using hk.symm
      subst this
      rfl⟩
    (by simp)

/-- C5: `flush` drains atomically: on a non-empty buffer the batch handed
to the sender is exactly the buffer contents and the stored buffer is
reset to empty before the send; a flush on an empty buffer is a no-op
(state unchanged, no events); hence a second back-to-back flush is an
empty no-op drain. -/
theorem drain_idempotent (cfg : Config) (s : ClientState) (oracle : Nat → FetchResult)
    (hne : s.buffer ≠ []) :
    (∀ t o n oracle2, flush cfg ⟨[], t, o, n⟩ oracle2 = (⟨[], t, o, n⟩, [])) ∧
    Event.flushStarted s.buffer ∈ (flush cfg s oracle).2 ∧
    (flush cfg s oracle).1.buffer = [] ∧
    (∀ oracle2, flush cfg (flush cfg s oracle).1 oracle2 = ((flush cfg s oracle).1, [])) := by
  refine ⟨fun t o n oracle2 => flush_empty cfg oracle2 t o n, flush_flushStarted cfg s oracle hne, ?_, ?_⟩
  · obtain ⟨buf, t, o, n⟩ := s
    cases t with
    | none => rw [flush_eq_none cfg oracle buf o n hne]
    | some k => rw [flush_eq_some cfg oracle buf k o n hne]
  · intro oracle2
    obtain ⟨buf, t, o, n⟩ := s
    cases t with
    | none => rw [flush_eq_none cfg oracle buf o n hne]; exact flush_empty cfg oracle2 _ _ _
    | some k => rw [flush_eq_some cfg oracle buf k o n hne]; exact flush_empty cfg oracle2 _ _ _

theorem drain_idempotent_witness :
    (∀ t o n oracle2, flush (Config.mk "k" "u" "production" 50 2000 3) ⟨[], t, o, n⟩ oracle2 =
      (⟨[], t, o, n⟩, [])) ∧
    Event.flushStarted [⟨Level.info, "m", [], "t"⟩] ∈
      (flush (Config.mk "k" "u" "production" 50 2000 3)
        ⟨[⟨Level.info, "m", [], "t"⟩], none, [], 0⟩ (fun _ => FetchResult.response 200)).2 ∧
    (flush (Config.mk "k" "u" "production" 50 2000 3)
      ⟨[⟨Level.info, "m", [], "t"⟩], none, [], 0⟩ (fun _ => FetchResult.response 200)).1.buffer = [] ∧
    (∀ oracle2, flush (Config.mk "k" "u" "production" 50 2000 3)
        (flush (Config.mk "k" "u" "production" 50 2000 3)
          ⟨[⟨Level.info, "m", [], "t"⟩], none, [], 0⟩ (fun _ => FetchResult.response 200)).1 oracle2 =
      ((flush (Config.mk "k" "u" "production" 50 2000 3)
        ⟨[⟨Level.info, "m", [], "t"⟩], none, [], 0⟩ (fun _ => FetchResult.response 200)).1, [])) :=
  drain_idempotent (Config.mk "k" "u" "production" 50 2000 3)
    ⟨[⟨Level.info, "m", [], "t"⟩], none, [], 0⟩ (fun _ => FetchResult.response 200) (by simp)

lemma flush_no_timerSet (cfg : Config) (s : ClientState) (oracle : Nat → FetchResult)
    (k : Nat) : Event.timerSet k ∉ (flush cfg s oracle).2 := by
  obtain ⟨buf, t, o, n⟩ := s
  by_cases hb : buf = []
  · subst hb
    simp [flush_empty]
  · by_cases hs : (send oracle cfg.maxRetries 0).success
    · cases t with
      | none => simp [flush_eq_none cfg oracle buf o n hb, hs]
      | some k0 => simp [flush_eq_some cfg oracle buf k0 o n hb, hs]
    · cases t with
      | none => simp [flush_eq_none cfg oracle buf o n hb, hs, failMsg]
      | some k0 => simp [flush_eq_some cfg oracle buf k0 o n hb, hs, failMsg]

/-- C6: in every reachable state at most one timer is outstanding, and a
non-null stored handle is exactly the signal that one timer is armed;
moreover `captureLog` emits a timer-arming event only when no timer was
armed and the threshold was not reached, and `flush` on a non-empty buffer
leaves the handle cleared. -/
theorem at_most_one_timer (cfg : Config) (s : ClientState) (hr : Reachable cfg s) :
    s.outstanding.length ≤ 1 ∧
    (∀ k, s.timer = some k ↔ s.outstanding = [k]) ∧
    (∀ level message metadata now oracle k,
      Event.timerSet k ∈ (captureLog cfg s level message metadata now oracle).2 →
        s.timer = none ∧ ¬ cfg.batchSize ≤ s.buffer.length + 1) ∧
    (s.buffer ≠ [] → ∀ oracle, (flush cfg s oracle).1.timer = none) := by
  obtain ⟨h1, h2⟩ := reachable_timerInv cfg s hr
  refine ⟨?_, ?_, ?_, ?_⟩
  · cases ht : s.timer with
    | none => rw [h1 ht]; simp
    | some k => rw [(h2 k ht).1]; simp
  · intro k
    constructor
    · intro hk
      exact (h2 k hk).1
    · intro ho
      cases ht : s.timer with
      | none =>
        rw [h1 ht] at ho
        simp at ho
      | some k2 =>
        have hk2 : s.outstanding = [k2] := (h2 k2 ht).1
        rw [hk2] at ho
        have : k2 = k := by simpa using ho
        rw [← this]
  · intro level message metadata now oracle k hmem
    obtain ⟨buf, t, o, n⟩ := s
    by_cases hth : cfg.batchSize ≤ buf.length + 1
    · rw [captureLog_eq_threshold cfg oracle buf t o n level message metadata now hth] at hmem
      exact absurd hmem (flush_no_timerSet cfg _ oracle k)
    · cases t with
      | none => exact ⟨rfl, hth⟩
      | some k0 =>
        rw [captureLog_eq_below_some cfg oracle buf k0 o n level message metadata now hth] at hmem
        simp at hmem
  · intro hb oracle
    obtain ⟨buf, t, o, n⟩ := s
    cases t with
    | none => rw [flush_eq_none cfg oracle buf o n hb]
    | some k => rw [flush_eq_some cfg oracle buf k o n hb]

theorem at_most_one_timer_witness :
    initState.outstanding.length ≤ 1 ∧
    (∀ k, initState.timer = some k ↔ initState.outstanding = [k]) ∧
    (∀ level message metadata now oracle k,
      Event.timerSet k ∈ (captureLog (Config.mk "k" "u" "production" 50 2000 3)
        initState level message metadata now oracle).2 →
        initState.timer = none ∧
        ¬ (Config.mk "k" "u" "production" 50 2000 3).batchSize ≤ initState.buffer.length + 1) ∧
    (initState.buffer ≠ [] → ∀ oracle,
      (flush (Config.mk "k" "u" "production" 50 2000 3) initState oracle).1.timer = none) :=
  at_most_one_timer (Config.mk "k" "u" "production" 50 2000 3) initState Reachable.init

/-- C7: constructing a client with an empty API key raises the
configuration error synchronously (the constructor result is the thrown
error, produced with no network activity modelled at all), while a
non-empty API key yields a fixed configuration carrying that key and the
documented defaults. -/
theorem config_key_validation (opts : HorizonClientOptions) :
    (opts.apiKey = "" → mkHorizonClient opts = Except.error "Horizon API Key is required") ∧
    (opts.apiKey ≠ "" → ∃ cfg, mkHorizonClient opts = Except.ok cfg ∧
      cfg.apiKey = opts.apiKey ∧
      cfg.batchSize = orDefaultNat opts.batchSize 50 ∧
      cfg.flushInterval = orDefaultNat opts.flushInterval 2000 ∧
      cfg.maxRetries = orDefaultNat opts.maxRetries 3) := by
  constructor
  · intro h
    simp [mkHorizonClient, h]
  · intro h
    refine ⟨⟨opts.apiKey,
        orDefaultStr opts.ingestUrl "https://horizon-api.bylinee.com/v1/ingest",
        orDefaultStr opts.environment "production",
        orDefaultNat opts.batchSize 50,
        orDefaultNat opts.flushInterval 2000,
        orDefaultNat opts.maxRetries 3⟩, ?_, rfl, rfl, rfl, rfl⟩
    simp [mkHorizonClient, h]

theorem config_key_validation_witness :
    mkHorizonClient ⟨"", none, none, none, none, none⟩ =
      Except.error "Horizon API Key is required" ∧
    ∃ cfg, mkHorizonClient ⟨"secret", none, none, none, none, none⟩ = Except.ok cfg ∧
      cfg.apiKey = "secret" ∧
      cfg.batchSize = orDefaultNat none 50 ∧
      cfg.flushInterval = orDefaultNat none 2000 ∧
      cfg.maxRetries = orDefaultNat none 3 :=
  ⟨(config_key_validation ⟨"", none, none, none, none, none⟩).1 rfl,
   (config_key_validation ⟨"secret", none, none, none, none, none⟩).2 (by simp)⟩

lemma captureLog_then_flush_contains (cfg : Config) (s : ClientState)
    (oracle : Nat → FetchResult) (level : Level) (message : String)
    (metadata : List (String × String)) (now : String) :
    ∃ batch, mkRecord cfg level message metadata now ∈ batch ∧
      (Event.flushStarted batch ∈ (captureLog cfg s level message metadata now oracle).2 ∨
       Event.flushStarted batch ∈
         (flush cfg (captureLog cfg s level message metadata now oracle).1 oracle).2) := by
  obtain ⟨buf, t, o, n⟩ := s
  by_cases hth : cfg.batchSize ≤ buf.length + 1
  · refine ⟨buf ++ [mkRecord cfg level message metadata now], by simp, Or.inl ?_⟩
    rw [captureLog_eq_threshold cfg oracle buf t o n level message metadata now hth]
    exact flush_flushStarted cfg _ oracle (by simp)
  · cases t with
    | none =>
      refine ⟨buf ++ [mkRecord cfg level message metadata now], by simp, Or.inr ?_⟩
      rw [captureLog_eq_below_none cfg oracle buf o n level message metadata now hth]
      exact flush_flushStarted cfg _ oracle (by simp)
    | some k =>
      refine ⟨buf ++ [mkRecord cfg level message metadata now], by simp, Or.inr ?_⟩
      rw [captureLog_eq_below_some cfg oracle buf k o n level message metadata now hth]
      exact flush_flushStarted cfg _ oracle (by simp)

lemma captureLog_record_kept (cfg : Config) (s : ClientState)
    (oracle : Nat → FetchResult) (level : Level) (message : String)
    (metadata : List (String × String)) (now : String) :
    ∃ r : LogRecord, r.level = level ∧
      (r ∈ (captureLog cfg s level message metadata now oracle).1.buffer ∨
       ∃ batch, Event.flushStarted batch ∈
           (captureLog cfg s level message metadata now oracle).2 ∧ r ∈ batch) := by
  obtain ⟨buf, t, o, n⟩ := s
  refine ⟨mkRecord cfg level message metadata now, rfl, ?_⟩
  by_cases hth : cfg.batchSize ≤ buf.length + 1
  · refine Or.inr ⟨buf ++ [mkRecord cfg level message metadata now], ?_, by simp⟩
    rw [captureLog_eq_threshold cfg oracle buf t o n level message metadata now hth]
    exact flush_flushStarted cfg _ oracle (by simp)
  · cases t with
    | none =>
      rw [captureLog_eq_below_none cfg oracle buf o n level message metadata now hth]
      exact Or.inl (by simp)
    | some k =>
      rw [captureLog_eq_below_some cfg oracle buf k o n level message metadata now hth]
      exact Or.inl (by simp)

lemma captureLog_below_no_flush (cfg : Config) (s : ClientState)
    (oracle : Nat → FetchResult) (level : Level) (message : String)
    (metadata : List (String × String)) (now : String)
    (hth : ¬ cfg.batchSize ≤ s.buffer.length + 1) :
    (∀ b, Event.flushStarted b ∉ (captureLog cfg s level message metadata now oracle).2) ∧
    (captureLog cfg s level message metadata now oracle).1.buffer =
      s.buffer ++ [mkRecord cfg level message metadata now] := by
  obtain ⟨buf, t, o, n⟩ := s
  cases t with
  | none =>
    rw [captureLog_eq_below_none cfg oracle buf o n level message metadata now hth]
    exact ⟨fun b => by simp, rfl⟩
  | some k =>
    rw [captureLog_eq_below_some cfg oracle buf k o n level message metadata now hth]
    exact ⟨fun b => by simp, rfl⟩

/-- C8: the uncaught-exception handler records a fatal record carrying the
fault's message and stack, that record reaches a started flush batch
within the handler, and `process.exit(1)` is the very last event — i.e.
after the awaited flush completes; the unhandled-rejection handler records
a fatal record too but never emits a process-exit event and performs no
forced flush of its own: below the batch-size threshold its trace contains
no flush start at all and the fatal record merely stays appended to the
buffer. -/
theorem watchdog_fatal_handling (cfg : Config) (s : ClientState) (e : JsError)
    (reason : Reason) (now : String) (oracle : Nat → FetchResult)
    (hmsg : e.message ≠ "") :
    (∃ batch, Event.flushStarted batch ∈ (uncaughtExceptionHandler cfg s e now oracle).2 ∧
      ∃ r, r ∈ batch ∧ r.level = Level.fatal ∧ r.message = e.message ∧
        ("stack", e.stack) ∈ r.metadata) ∧
    (uncaughtExceptionHandler cfg s e now oracle).2.getLast? = some (Event.processExit 1) ∧
    (∃ r : LogRecord, r.level = Level.fatal ∧
      (r ∈ (unhandledRejectionHandler cfg s reason now oracle).1.buffer ∨
       ∃ batch, Event.flushStarted batch ∈
           (unhandledRejectionHandler cfg s reason now oracle).2 ∧ r ∈ batch)) ∧
    (¬ cfg.batchSize ≤ s.buffer.length + 1 →
      (∀ b, Event.flushStarted b ∉ (unhandledRejectionHandler cfg s reason now oracle).2) ∧
      ∃ r : LogRecord, r.level = Level.fatal ∧
        (unhandledRejectionHandler cfg s reason now oracle).1.buffer = s.buffer ++ [r]) ∧
    (∀ c, Event.processExit c ∉ (unhandledRejectionHandler cfg s reason now oracle).2) := by
  have hev : (uncaughtExceptionHandler cfg s e now oracle).2 =
      Event.consoleError "[Horizon SDK] Uncaught Exception detected." ::
        (captureLog cfg s Level.fatal e.message
          [("stack", e.stack), ("type", "uncaughtException")] now oracle).2 ++
        (flush cfg (captureLog cfg s Level.fatal e.message
          [("stack", e.stack), ("type", "uncaughtException")] now oracle).1 oracle).2 ++
        [Event.processExit 1] := by
    simp [uncaughtExceptionHandler, hmsg]
  obtain ⟨batch, hrec, hdisj⟩ := captureLog_then_flush_contains cfg s oracle Level.fatal
    e.message [("stack", e.stack), ("type", "uncaughtException")] now
  refine ⟨⟨batch, ?_,
      mkRecord cfg Level.fatal e.message
        [("stack", e.stack), ("type", "uncaughtException")] now,
      hrec, rfl, rfl, by simp [mkRecord]⟩, ?_, ?_, ?_, ?_⟩
  · rw [hev]
    rcases hdisj with h | h
    · exact List.mem_append_left _ (List.mem_append_left _ (List.mem_cons_of_mem _ h))
    · exact List.mem_append_left _ (List.mem_append_right _ h)
  · rw [hev]
    exact List.getLast?_concat _
  · simp only [unhandledRejectionHandler]
    exact captureLog_record_kept cfg s oracle Level.fatal _ _ now
  · intro hth
    simp only [unhandledRejectionHandler]
    obtain ⟨hno, hbuf⟩ := captureLog_below_no_flush cfg s oracle Level.fatal
      (if (match reason with | Reason.jsErr e2 => e2.message | Reason.other v => v) = ""
       then "Unhandled Rejection"
       else (match reason with | Reason.jsErr e2 => e2.message | Reason.other v => v))
      [("type", "unhandledRejection"),
       ("reason", match reason with | Reason.jsErr e2 => e2.stack | Reason.other v => v)]
      now hth
    exact ⟨hno, _, rfl, hbuf⟩
  · intro c
    simp only [unhandledRejectionHandler]
    exact captureLog_no_exit cfg s oracle Level.fatal _ _ now c

theorem watchdog_fatal_handling_witness :
    (∃ batch, Event.flushStarted batch ∈
        (uncaughtExceptionHandler (Config.mk "k" "u" "production" 50 2000 3) initState
          ⟨"boom", "trace"⟩ "t" (fun _ => FetchResult.response 200)).2 ∧
      ∃ r, r ∈ batch ∧ r.level = Level.fatal ∧ r.message = (JsError.mk "boom" "trace").message ∧
        ("stack", (JsError.mk "boom" "trace").stack) ∈ r.metadata) ∧
    (uncaughtExceptionHandler (Config.mk "k" "u" "production" 50 2000 3) initState
      ⟨"boom", "trace"⟩ "t" (fun _ => FetchResult.response 200)).2.getLast? =
      some (Event.processExit 1) ∧
    (∃ r : LogRecord, r.level = Level.fatal ∧
      (r ∈ (unhandledRejectionHandler (Config.mk "k" "u" "production" 50 2000 3) initState
          (Reason.other "oops") "t" (fun _ => FetchResult.response 200)).1.buffer ∨
       ∃ batch, Event.flushStarted batch ∈
           (unhandledRejectionHandler (Config.mk "k" "u" "production" 50 2000 3) initState
             (Reason.other "oops") "t" (fun _ => FetchResult.response 200)).2 ∧ r ∈ batch)) ∧
    (¬ (Config.mk "k" "u" "production" 50 2000 3).batchSize ≤ initState.buffer.length + 1 →
      (∀ b, Event.flushStarted b ∉
        (unhandledRejectionHandler (Config.mk "k" "u" "production" 50 2000 3) initState
          (Reason.other "oops") "t" (fun _ => FetchResult.response 200)).2) ∧
      ∃ r : LogRecord, r.level = Level.fatal ∧
        (unhandledRejectionHandler (Config.mk "k" "u" "production" 50 2000 3) initState
          (Reason.other "oops") "t" (fun _ => FetchResult.response 200)).1.buffer =
          initState.buffer ++ [r]) ∧
    (∀ c, Event.processExit c ∉
      (unhandledRejectionHandler (Config.mk "k" "u" "production" 50 2000 3) initState
        (Reason.other "oops") "t" (fun _ => FetchResult.response 200)).2) :=
  watchdog_fatal_handling (Config.mk "k" "u" "production" 50 2000 3) initState
    ⟨"boom", "trace"⟩ (Reason.other "oops") "t" (fun _ => FetchResult.response 200)
    (by simp)

/-- C9 (counterexample to the original claim): with `batchSize = 1`,
`maxRetries = 3` and a transport that always answers 500, a single
`captureLog` call awaits a backoff delay (the 1000 ms sleep after attempt
0) before its returned promise resolves — the events of the call include
that suspension, so completion of `captureLog` does wait on the network
send and its backoff. -/
theorem record_waits_on_backoff_counterexample :
    Event.awaitDelay 1000 ∈
      (captureLog (Config.mk "k" "u" "production" 1 2000 3) initState
        Level.info "boot" [] "t0" (fun _ => FetchResult.response 500)).2 := by
  have hsend := send_all_5xx (fun _ => FetchResult.response 500) 3
    (fun n _ => Or.inr ⟨500, rfl, by omega⟩) 3 0 rfl (by omega)
  have hth : (Config.mk "k" "u" "production" 1 2000 3).batchSize ≤
      ([] : List LogRecord).length + 1 := by simp
  rw [show initState = (⟨[], none, [], 0⟩ : ClientState) from rfl,
    captureLog_eq_threshold (Config.mk "k" "u" "production" 1 2000 3)
      (fun _ => FetchResult.response 500) [] none [] 0 Level.info "boot" [] "t0" hth,
    flush_eq_none (Config.mk "k" "u" "production" 1 2000 3)
      (fun _ => FetchResult.response 500) _ [] 0 (by simp), hsend]
  simp [List.range']

/-- C9 (amended): `captureLog` performs no awaited suspension when the
buffer stays below the batch-size threshold — it only appends and possibly
arms a timer — but a call that reaches the threshold awaits the entire
flush, including the network send and every backoff delay, before it
completes. -/
theorem record_suspension_behaviour (cfg : Config) (s : ClientState)
    (oracle : Nat → FetchResult) (level : Level) (message : String)
    (metadata : List (String × String)) (now : String) :
    (¬ cfg.batchSize ≤ s.buffer.length + 1 →
      ∀ d, Event.awaitDelay d ∉ (captureLog cfg s level message metadata now oracle).2) ∧
    (cfg.batchSize ≤ s.buffer.length + 1 →
      (captureLog cfg s level message metadata now oracle).2 =
        (flush cfg { s with buffer := s.buffer ++ [mkRecord cfg level message metadata now] }
          oracle).2) := by
  obtain ⟨buf, t, o, n⟩ := s
  constructor
  · intro hth d
    cases t with
    | none =>
      rw [captureLog_eq_below_none cfg oracle buf o n level message metadata now hth]
      simp
    | some k =>
      rw [captureLog_eq_below_some cfg oracle buf k o n level message metadata now hth]
      simp
  · intro hth
    rw [captureLog_eq_threshold cfg oracle buf t o n level message metadata now hth]

theorem record_suspension_behaviour_witness :
    (¬ (Config.mk "k" "u" "production" 50 2000 3).batchSize ≤
        initState.buffer.length + 1 →
      ∀ d, Event.awaitDelay d ∉
        (captureLog (Config.mk "k" "u" "production" 50 2000 3) initState
          Level.info "m" [] "t" (fun _ => FetchResult.response 200)).2) ∧
    ((Config.mk "k" "u" "production" 50 2000 3).batchSize ≤
        initState.buffer.length + 1 →
      (captureLog (Config.mk "k" "u" "production" 50 2000 3) initState
        Level.info "m" [] "t" (fun _ => FetchResult.response 200)).2 =
        (flush (Config.mk "k" "u" "production" 50 2000 3)
          { initState with buffer := initState.buffer ++
              [mkRecord (Config.mk "k" "u" "production" 50 2000 3) Level.info "m" [] "t"] }
          (fun _ => FetchResult.response 200)).2) :=
  record_suspension_behaviour (Config.mk "k" "u" "production" 50 2000 3) initState
    (fun _ => FetchResult.response 200) Level.info "m" [] "t"
